import Mathlib

/-!
Shallow embedding of `simple-logger-udp` (src/src/logger.ts) in Lean 4.

The repository is a structured-logging facade: `formatLog` normalizes
messages into a GELF-like record, `shouldLog` is the severity filter,
`GraylogTransport` is the buffered UDP forwarding transport, and
`safeLogger` exposes level-tagged emit functions wrapped in try/catch.

Modelling conventions:
* Log payloads carried by the transport are identified by `Nat` ids; the
  completion callbacks stored next to them in the buffer are `() => {}`
  thunks in every caller and are elided.
* Impure inputs (`Date.now()`, `uuidv4()`, `os.hostname()`, environment
  variables) are passed in as parameters.
* JavaScript truthiness on strings ("" is falsy) is modelled explicitly
  where the source relies on it, and `x <= undefined` (which is false for
  every number in JS) is the `none` branch of a level lookup.
* Node.js asynchrony is flattened: a `dgram` send-error callback's effect
  is folded into the send step, and pending `setTimeout` work is modelled
  by explicit flags on the transport state (`reconnectTimer` for the
  reconnect timeout the source stores, `drainScheduled` for the
  `processBuffer` continuation the source does not store).
-/

set_option linter.unusedVariables false

namespace SimpleLoggerUdp

/-- Syslog levels from the `LOG_LEVELS` object in logger.ts
(`fatal: 2, error: 3, warn: 4, info: 6, debug: 7`). -/
structure LogLevels where
  fatal : Nat
  error : Nat
  warn : Nat
  info : Nat
  debug : Nat
deriving DecidableEq, Repr

def LOG_LEVELS : LogLevels :=
  { fatal := 2, error := 3, warn := 4, info := 6, debug := 7 }

/-- Indexing `LOG_LEVELS[configLogLevel as keyof typeof LOG_LEVELS]`:
a recognized name yields its numeric value, any other string yields
`undefined`, modelled as `none`. -/
def logLevelOf (s : String) : Option Nat :=
  if s = "fatal" then some LOG_LEVELS.fatal
  else if s = "error" then some LOG_LEVELS.error
  else if s = "warn" then some LOG_LEVELS.warn
  else if s = "info" then some LOG_LEVELS.info
  else if s = "debug" then some LOG_LEVELS.debug
  else none

/-- The severity filter `shouldLog` in logger.ts. The configured level is
`getValue('graylogLogLevel') || 'info'`: an absent environment variable
reads as the empty string, which is falsy, so only `""` falls back to
`"info"`. For an unrecognized non-empty name, `LOG_LEVELS[...]` is
`undefined` and the JS comparison `logLevel <= undefined` is false. -/
def shouldLog (configLogLevelRaw : String) (logLevel : Nat) : Bool :=
  let configLogLevel := if configLogLevelRaw = "" then "info" else configLogLevelRaw
  match logLevelOf configLogLevel with
  | some configLevelValue => decide (logLevel ≤ configLevelValue)
  | none => false

/-- A JavaScript `Error` object, as consumed by the `message instanceof
Error` branch of `formatLog`. -/
structure JsError where
  message : String
  stack : String
  name : String
deriving DecidableEq, Repr

/-- The structured-object branch of `formatLog` reads these properties of
the message; `none` models an absent property and `some ""` an empty
string (both falsy under `||`). `rest` models the remaining key/value
pairs kept by the `...rest` spread. -/
structure ObjMessage where
  msg : Option String
  message : Option String
  short_message : Option String
  fullMessage : Option String
  full_message : Option String
  details : Option String
  correlation_id : Option String
  rest : List (String × String)
deriving DecidableEq, Repr

/-- The three input shapes `formatLog` distinguishes: a plain string, an
`Error` object, or a structured object. -/
inductive LogMessage where
  | str (s : String)
  | jsError (e : JsError)
  | obj (o : ObjMessage)
deriving DecidableEq, Repr

/-- The `StandardLogFormat` envelope of logger.ts, restricted to the
fields the source writes. `extra` holds the caller-supplied additional
pairs spread in by `...rest`. -/
structure StandardLogFormat where
  version : String
  host : String
  short_message : String
  full_message : Option String
  timestamp : Nat
  level : Nat
  error_code : Option String
  error_message : Option String
  correlation_id : String
  extra : List (String × String)
deriving DecidableEq, Repr

/-- The `defaultLogValues` constant (host et al. come from the
environment; concrete strings stand in for them, no claim depends on
their values). -/
def defaultLogValues : StandardLogFormat :=
  { version := "1.1"
  , host := "unknown-host"
  , short_message := ""
  , full_message := none
  , timestamp := 0
  , level := LOG_LEVELS.info
  , error_code := none
  , error_message := none
  , correlation_id := ""
  , extra := [] }

/-- JavaScript truthiness for an optional string: `undefined` and `""`
are falsy. Used for the `a || b || ...` chains in `formatLog`. -/
def truthy (o : Option String) : Option String :=
  match o with
  | some s => if s = "" then none else some s
  | none => none

/-- JS `a || b` on (optional) strings. -/
def orFalsy (a b : Option String) : Option String :=
  match truthy a with
  | some s => some s
  | none => b

/-- The `formatLog` function of logger.ts. `timestamp` stands for
`Date.now() / 1000` and `correlationId` for `uuidv4()`. -/
def formatLog (message : LogMessage) (level : Nat) (timestamp : Nat)
    (correlationId : String) : StandardLogFormat :=
  match message with
  | .str s =>
      { defaultLogValues with
        short_message := s
        timestamp := timestamp
        level := level
        correlation_id := correlationId }
  | .jsError e =>
      { defaultLogValues with
        short_message := e.message
        full_message := some e.stack
        timestamp := timestamp
        level := LOG_LEVELS.error
        error_message := some e.message
        error_code := some e.name
        correlation_id := correlationId }
  | .obj o =>
      let shortMessage :=
        (orFalsy o.msg (orFalsy o.message (orFalsy o.short_message none))).getD "No Content"
      let fullMessage :=
        orFalsy o.fullMessage (orFalsy o.full_message (truthy o.details))
      let standardLog : StandardLogFormat :=
        { defaultLogValues with
          short_message := shortMessage
          timestamp := timestamp
          level := level
          correlation_id := (orFalsy o.correlation_id none).getD correlationId
          extra := o.rest }
      match truthy fullMessage with
      | some fm => { standardLog with full_message := some fm }
      | none => standardLog

/-- State of the `GraylogTransport` class. `clientPresent` is
`this.client !== null`; `socketRunning` is the open/closed state of the
underlying dgram socket (Node-internal, not a field of the class);
`reconnectTimer` is whether `this.reconnectTimeout` holds a pending
timer; `drainScheduled` is whether a `setTimeout(() =>
this.processBuffer(), 100)` continuation is pending — the source never
stores that handle; `releases` is a ghost counter of actual socket
releases. Buffer entries are record ids (their callbacks are all
`() => {}` and elided). -/
structure GraylogTransport where
  clientPresent : Bool
  socketRunning : Bool
  connected : Bool
  buffer : List Nat
  maxBufferSize : Nat
  reconnectTimer : Bool
  drainScheduled : Bool
  releases : Nat
deriving DecidableEq, Repr

namespace GraylogTransport

/-- `scheduleReconnect`: clears any pending reconnect timeout and arms a
new one; net effect is that exactly one reconnect timer is pending. -/
def scheduleReconnect (t : GraylogTransport) : GraylogTransport :=
  { t with reconnectTimer := true }

/-- `sendLog`: no-op when `this.client` is null; a `JSON.stringify`
failure is caught by the surrounding try/catch (state unchanged, record
dropped); a socket-level send failure runs the error callback, which
sets `connected = false` and schedules a reconnect — the record is not
put back anywhere. -/
def sendLog (t : GraylogTransport) (log : Nat)
    (serializeFails sendFails : Bool) : GraylogTransport :=
  if !t.clientPresent then t
  else if serializeFails then t
  else if sendFails then scheduleReconnect { t with connected := false }
  else t

/-- `write`: when not connected (or no client), enqueue under the
bounded-FIFO policy — below capacity push, at capacity `shift()` the
oldest then push; when connected, send immediately and invoke the
callback. -/
def write (t : GraylogTransport) (log : Nat)
    (serializeFails sendFails : Bool) : GraylogTransport :=
  if !t.connected || !t.clientPresent then
    if t.buffer.length < t.maxBufferSize then
      { t with buffer := t.buffer ++ [log] }
    else
      { t with buffer := t.buffer.tail ++ [log] }
  else
    sendLog t log serializeFails sendFails

/-- One invocation of `processBuffer`: if the buffer is non-empty and the
transport is connected with a client, `splice` off the first
`min(10, length)` entries, send each in order, and, if entries remain,
schedule another `processBuffer` via `setTimeout` instead of looping.
Returns the new state and the batch sent by this invocation. -/
def processBuffer (t : GraylogTransport) (sendFails : Bool) :
    GraylogTransport × List Nat :=
  if 0 < t.buffer.length && t.connected && t.clientPresent then
    let n := min 10 t.buffer.length
    let batch := t.buffer.take n
    let afterSplice := { t with buffer := t.buffer.drop n }
    let t1 := batch.foldl (fun s lg => sendLog s lg false sendFails) afterSplice
    if 0 < t1.buffer.length then ({ t1 with drainScheduled := true }, batch)
    else (t1, batch)
  else (t, [])

/-- A pending `processBuffer` continuation fires: the timeout is
consumed, then `processBuffer` runs. -/
def fireDrain (t : GraylogTransport) (sendFails : Bool) :
    GraylogTransport × List Nat :=
  processBuffer { t with drainScheduled := false } sendFails

/-- `setupConnection`: on socket-creation failure, mark disconnected and
schedule a reconnect; on success, install the client, mark connected,
and call `processBuffer` to start draining. Returns the new state and
the batch the immediate `processBuffer` call sent. -/
def setupConnection (t : GraylogTransport) (createFails sendFails : Bool) :
    GraylogTransport × List Nat :=
  if createFails then (scheduleReconnect { t with connected := false }, [])
  else
    let t1 := { t with clientPresent := true, socketRunning := true, connected := true }
    processBuffer t1 sendFails

/-- Closing the underlying dgram socket: succeeds when it is running,
throws `ERR_SOCKET_DGRAM_NOT_RUNNING` when already closed. -/
def socketCloseOp (running : Bool) : Except Unit Unit :=
  if running then Except.ok () else Except.error ()

/-- `close`: clear the reconnect timeout if present, then close the
socket inside try/catch, ignoring errors. The pending drain continuation,
`connected`, and `client` are untouched. -/
def close (t : GraylogTransport) : GraylogTransport :=
  let t1 := { t with reconnectTimer := false }
  if t1.clientPresent then
    match socketCloseOp t1.socketRunning with
    | Except.ok _ => { t1 with socketRunning := false, releases := t1.releases + 1 }
    | Except.error _ => t1
  else t1

/-- A sequence of `write` calls (submits), serialization and sends
succeeding. -/
def writeAll (t : GraylogTransport) (logs : List Nat) : GraylogTransport :=
  logs.foldl (fun s lg => write s lg false false) t

/-- Running `k` scheduled `processBuffer` continuations in sequence,
sends succeeding; returns the final state and the concatenation of the
batches in the order sent. -/
def drainRun (t : GraylogTransport) : Nat → GraylogTransport × List Nat
  | 0 => (t, [])
  | Nat.succ k =>
      let p := fireDrain t false
      let q := drainRun p.1 k
      (q.1, p.2 ++ q.2)

end GraylogTransport

/-- A freshly connected transport with an empty buffer and the default
capacity hard-coded in the class (`maxBufferSize = 100`). -/
def connectedTransport : GraylogTransport :=
  { clientPresent := true
  , socketRunning := true
  , connected := true
  , buffer := []
  , maxBufferSize := 100
  , reconnectTimer := false
  , drainScheduled := false
  , releases := 0 }

/-- A disconnected transport with an empty buffer and the default
capacity. -/
def disconnectedTransport : GraylogTransport :=
  { connectedTransport with
    clientPresent := false
  , socketRunning := false
  , connected := false }

/-- One internal stage of an emit call that may throw (the JS dynamic
failure modes of `formatLog`, of the pino/pino-pretty console sink, or of
anything else inside the `try` block). -/
def runStage (throws : Bool) : Except Unit Unit :=
  if throws then Except.error () else Except.ok ()

/-- The `[FALLBACK]` console print in each `catch` handler. Node's
`Console` never throws: errors writing to the underlying stream are
ignored by default, so the fallback print is modelled as an action that
always returns. -/
def fallbackConsolePrint : Except Unit Unit := Except.ok ()

/-- Observable outcome of one `safeLogger` emit call: what the caller
sees (`result`), whether the catch-handler fallback print ran, and the
record handed to the Graylog transport, if any. -/
structure EmitOutcome where
  result : Except Unit Unit
  fallbackUsed : Bool
  sentToTransport : Option StandardLogFormat
deriving Repr

/-- The body of an emit function's `try` block after the `shouldLog`
early return: `formatLog`, then the local pino sink, then
`sendToGraylog` (which hands the record to the transport only when the
feature is enabled and a transport instance exists; `write` itself never
throws — every throwing operation inside it is wrapped in its own
try/catch). -/
def emitBody (record : StandardLogFormat) (formatThrows sinkThrows : Bool)
    (enabled transportPresent : Bool) : Except Unit (Option StandardLogFormat) := do
  _ ← runStage formatThrows
  _ ← runStage sinkThrows
  pure (if enabled && transportPresent then some record else none)

/-- One `safeLogger` level-tagged emit function (`info`, `error`, `warn`,
`debug`), instantiated at its numeric `level`: check `shouldLog` and
return early if filtered, otherwise run the try block; any exception is
caught and answered with the fallback console print. -/
def safeEmit (cfg : String) (level : Nat) (msg : LogMessage)
    (timestamp : Nat) (cid : String) (formatThrows sinkThrows : Bool)
    (enabled transportPresent : Bool) : EmitOutcome :=
  if !shouldLog cfg level then
    { result := Except.ok (), fallbackUsed := false, sentToTransport := none }
  else
    match emitBody (formatLog msg level timestamp cid) formatThrows sinkThrows
        enabled transportPresent with
    | Except.ok sent =>
        { result := Except.ok (), fallbackUsed := false, sentToTransport := sent }
    | Except.error _ =>
        { result := fallbackConsolePrint, fallbackUsed := true, sentToTransport := none }

/-- A context-bound emit function from `safeLogger.createContext`: same
shape, with the pure merge `{...baseLog, ...contextValues}` applied
between formatting and the sinks. The merge is spreading two plain
objects (the context was itself copied by spread at `createContext`
time), which cannot throw, so it is an arbitrary pure record
transformation here. -/
def safeEmitCtx (ctxMerge : StandardLogFormat → StandardLogFormat)
    (cfg : String) (level : Nat) (msg : LogMessage)
    (timestamp : Nat) (cid : String) (formatThrows sinkThrows : Bool)
    (enabled transportPresent : Bool) : EmitOutcome :=
  if !shouldLog cfg level then
    { result := Except.ok (), fallbackUsed := false, sentToTransport := none }
  else
    match emitBody (ctxMerge (formatLog msg level timestamp cid)) formatThrows
        sinkThrows enabled transportPresent with
    | Except.ok sent =>
        { result := Except.ok (), fallbackUsed := false, sentToTransport := sent }
    | Except.error _ =>
        { result := fallbackConsolePrint, fallbackUsed := true, sentToTransport := none }

/-- The part of `graylogConfig` that `testGraylogConnection` reads:
whether the feature is enabled and the result of
`parseInt(String(port), 10)` (`none` for `NaN`). -/
structure GraylogConfig where
  enabled : Bool
  host : String
  port : Option Nat
deriving DecidableEq, Repr

/-- Result type of `testGraylogConnection` (`message` is the spec's
`detail` string). -/
structure TestResult where
  success : Bool
  message : String
deriving DecidableEq, Repr

/-- The exact string returned by `testGraylogConnection` when the
feature is disabled. -/
def disabledMessage : String := "Graylog não está ativado nas configurações."

/-- `testGraylogConnection`: disabled feature and invalid port return
failure without touching the network; with a live transport the probe
goes through `write` and success is reported; otherwise a one-shot
socket is opened (`openedSocket = true`) and success mirrors the send
callback. The returned flag records whether the call opened a socket of
its own. -/
def testGraylogConnection (cfg : GraylogConfig)
    (transportPresent sendOk : Bool) : TestResult × Bool :=
  if !cfg.enabled then
    ({ success := false, message := disabledMessage }, false)
  else
    match cfg.port with
    | none => ({ success := false, message := "Porta inválida" }, false)
    | some _ =>
        if transportPresent then
          ({ success := true, message := "Conexão com Graylog estabelecida. Teste enviado" }, false)
        else if sendOk then
          ({ success := true, message := "Conexão com Graylog estabelecida. Teste enviado" }, true)
        else
          ({ success := false, message := "Falha ao enviar mensagem para Graylog." }, true)

/-- A connected transport with a pending drain continuation and a
pending reconnect timer and one queued record. -/
def pendingDrainTransport : GraylogTransport :=
  { connectedTransport with
    buffer := [5]
  , drainScheduled := true
  , reconnectTimer := true }

/-- A disconnected transport holding 25 queued records. -/
def queuedTransport : GraylogTransport :=
  { disconnectedTransport with buffer := (List.range 25).map (fun i => i + 1) }

/-- A connected transport holding 11 queued records. -/
def connectedEleven : GraylogTransport :=
  { connectedTransport with buffer := List.range 11 }

/-! ## Helper lemmas -/

lemma take_min_length (l : List Nat) (n : Nat) :
    l.take (min n l.length) = l.take n := by
  rcases Nat.le_total n l.length with h | h
  · rw [Nat.min_eq_left h]
  · rw [Nat.min_eq_right h, List.take_length, List.take_of_length_le h]

lemma drop_min_length (l : List Nat) (n : Nat) :
    l.drop (min n l.length) = l.drop n := by
  rcases Nat.le_total n l.length with h | h
  · rw [Nat.min_eq_left h]
  · rw [Nat.min_eq_right h, List.drop_length, List.drop_eq_nil_of_le h]

lemma write_disconnected_eq (t : GraylogTransport) (lg : Nat)
    (h : t.connected = false) :
    t.write lg false false =
      if t.buffer.length < t.maxBufferSize then
        { t with buffer := t.buffer ++ [lg] }
      else
        { t with buffer := t.buffer.tail ++ [lg] } := by
  unfold GraylogTransport.write
  simp [h]

lemma write_disconnected_preserves (t : GraylogTransport) (lg : Nat)
    (h : t.connected = false) :
    (t.write lg false false).connected = false
    ∧ (t.write lg false false).maxBufferSize = t.maxBufferSize := by
  rw [write_disconnected_eq t lg h]
  split <;> exact ⟨h, rfl⟩

lemma write_disconnected_length_le (t : GraylogTransport) (lg : Nat)
    (h : t.connected = false) (hb : t.buffer.length ≤ t.maxBufferSize)
    (hm : 0 < t.maxBufferSize) :
    (t.write lg false false).buffer.length ≤ t.maxBufferSize := by
  rw [write_disconnected_eq t lg h]
  split <;> rename_i hcond <;>
    simp only [List.length_append, List.length_cons, List.length_nil,
      List.length_tail] <;>
    omega

lemma writeAll_disconnected_length_le (logs : List Nat) :
    ∀ t : GraylogTransport, t.connected = false →
      t.buffer.length ≤ t.maxBufferSize → 0 < t.maxBufferSize →
      (t.writeAll logs).buffer.length ≤ t.maxBufferSize := by
  induction logs with
  | nil => intro t h hb hm; exact hb
  | cons lg rest ih =>
      intro t h hb hm
      have h1 := write_disconnected_preserves t lg h
      have h2 := write_disconnected_length_le t lg h hb hm
      have h3 := ih (t.write lg false false) h1.1
        (by rw [h1.2]; exact h2) (by rw [h1.2]; exact hm)
      rw [h1.2] at h3
      exact h3

lemma sendLog_success_id (t : GraylogTransport) (lg : Nat) :
    t.sendLog lg false false = t := by
  unfold GraylogTransport.sendLog
  split <;> rfl

lemma foldl_sendLog_success (l : List Nat) (t : GraylogTransport) :
    l.foldl (fun s lg => s.sendLog lg false false) t = t := by
  induction l generalizing t with
  | nil => rfl
  | cons a as ih =>
      rw [List.foldl_cons]
      rw [show GraylogTransport.sendLog t a false false = t from sendLog_success_id t a]
      exact ih t

lemma fireDrain_eq (t : GraylogTransport) (b : Bool) :
    t.fireDrain b = ({ t with drainScheduled := false }).processBuffer b := rfl

lemma setupConnection_success_eq (t : GraylogTransport) (b : Bool) :
    t.setupConnection false b
      = ({ t with clientPresent := true, socketRunning := true, connected := true }).processBuffer b := rfl

lemma drainRun_succ (t : GraylogTransport) (k : Nat) :
    t.drainRun (k + 1)
      = (((t.fireDrain false).1.drainRun k).1,
         (t.fireDrain false).2 ++ ((t.fireDrain false).1.drainRun k).2) := rfl

lemma processBuffer_success_spec (t : GraylogTransport)
    (hc : t.connected = true) (hp : t.clientPresent = true) :
    (t.processBuffer false).1.buffer = t.buffer.drop 10
    ∧ (t.processBuffer false).2 = t.buffer.take 10
    ∧ (t.processBuffer false).1.connected = true
    ∧ (t.processBuffer false).1.clientPresent = true := by
  unfold GraylogTransport.processBuffer
  by_cases h0 : 0 < t.buffer.length
  · rw [if_pos (by simp [hc, hp]; omega)]
    simp only [foldl_sendLog_success, take_min_length, drop_min_length]
    split <;> exact ⟨rfl, rfl, hc, hp⟩
  · have hnil : t.buffer = [] := by
      rcases hb : t.buffer with _ | ⟨x, xs⟩
      · rfl
      · exfalso; apply h0; rw [hb]; simp
    rw [if_neg (by simp [hnil])]
    exact ⟨by simp [hnil], by simp [hnil], hc, hp⟩

lemma processBuffer_batch_le_ten (u : GraylogTransport) (b : Bool) :
    (u.processBuffer b).2.length ≤ 10 := by
  unfold GraylogTransport.processBuffer
  by_cases h : (decide (0 < u.buffer.length) && u.connected && u.clientPresent) = true
  · rw [if_pos h]
    simp only [apply_ite Prod.snd, ite_self, List.length_take]
    exact le_trans (min_le_left _ _) (min_le_left _ _)
  · rw [if_neg h]
    simp

lemma processBuffer_reschedules (u : GraylogTransport)
    (hc : u.connected = true) (hp : u.clientPresent = true)
    (hlen : 10 < u.buffer.length) :
    (u.processBuffer false).1.drainScheduled = true := by
  unfold GraylogTransport.processBuffer
  rw [if_pos (by simp [hc, hp]; omega)]
  simp only [foldl_sendLog_success, take_min_length, drop_min_length]
  rw [if_pos (by simp only [List.length_drop]; omega)]

lemma drainRun_spec (k : Nat) : ∀ t : GraylogTransport,
    t.connected = true → t.clientPresent = true →
    (t.drainRun k).2 = t.buffer.take (10 * k)
    ∧ (t.drainRun k).1.buffer = t.buffer.drop (10 * k)
    ∧ (t.drainRun k).1.connected = true
    ∧ (t.drainRun k).1.clientPresent = true := by
  induction k with
  | zero => intro t hc hp; exact ⟨rfl, rfl, hc, hp⟩
  | succ k ih =>
      intro t hc hp
      obtain ⟨hb, hbt, hc2, hp2⟩ :=
        processBuffer_success_spec { t with drainScheduled := false } hc hp
      obtain ⟨ih1, ih2, ih3, ih4⟩ :=
        ih (({ t with drainScheduled := false }).processBuffer false).1 hc2 hp2
      have harith : 10 * (k + 1) = 10 + 10 * k := by ring
      rw [drainRun_succ, fireDrain_eq]
      refine ⟨?_, ?_, ih3, ih4⟩
      · show (({ t with drainScheduled := false }).processBuffer false).2
            ++ ((({ t with drainScheduled := false }).processBuffer false).1.drainRun k).2
            = t.buffer.take (10 * (k + 1))
        rw [ih1, hbt, hb, harith, List.take_add]
      · show ((({ t with drainScheduled := false }).processBuffer false).1.drainRun k).1.buffer
            = t.buffer.drop (10 * (k + 1))
        rw [ih2, hb, harith, List.drop_drop]

lemma close_preserves (t : GraylogTransport) :
    t.close.connected = t.connected
    ∧ t.close.clientPresent = t.clientPresent
    ∧ t.close.buffer = t.buffer
    ∧ t.close.reconnectTimer = false
    ∧ t.close.drainScheduled = t.drainScheduled := by
  unfold GraylogTransport.close GraylogTransport.socketCloseOp
  rcases t with ⟨cp, sr, c, b, m, rt, ds, r⟩
  cases cp <;> cases sr <;> simp

/-! ## Claims -/

/-- C9: for every Error-object input, `formatLog` tags the record at
numeric level 3 (`LOG_LEVELS.error`) regardless of the `level` argument,
with the error's message as `short_message`, its stack as
`full_message`, its name as `_error_code`, and its message as
`_error_message`. -/
theorem c9_formatLog_error_object_level3 (e : JsError) (level timestamp : Nat)
    (cid : String) :
    (formatLog (LogMessage.jsError e) level timestamp cid).level = 3
    ∧ (formatLog (LogMessage.jsError e) level timestamp cid).short_message = e.message
    ∧ (formatLog (LogMessage.jsError e) level timestamp cid).full_message = some e.stack
    ∧ (formatLog (LogMessage.jsError e) level timestamp cid).error_code = some e.name
    ∧ (formatLog (LogMessage.jsError e) level timestamp cid).error_message = some e.message
    ∧ LOG_LEVELS.error = 3 :=
  ⟨rfl, rfl, rfl, rfl, rfl, rfl⟩

/-- C10: a non-empty configured level name outside the five recognized
ones makes `shouldLog` false for every input level (the JS comparison
with `undefined` is false), and only the empty/missing configured level
falls back to `"info"`. -/
theorem c10_unrecognized_level_suppresses_all :
    (∀ cfg logLevel, cfg ≠ "" → logLevelOf cfg = none →
      shouldLog cfg logLevel = false)
    ∧ (∀ logLevel, shouldLog "" logLevel = shouldLog "info" logLevel) := by
  constructor
  · intro cfg logLevel hne hnone
    simp only [shouldLog, if_neg hne, hnone]
  · intro logLevel
    rfl

/-- C10 witness: the unrecognized level name `"trace"` suppresses a
critical-level record. -/
theorem c10_witness :
    ("trace" ≠ "" ∧ logLevelOf "trace" = none) ∧ shouldLog "trace" 2 = false :=
  ⟨⟨by decide, by rfl⟩,
   c10_unrecognized_level_suppresses_all.1 "trace" 2 (by decide) (by rfl)⟩

/-- C8: the severity filter is the pure predicate
`level ≤ configuredMinimum` on the inverted syslog scale whenever the
configured name resolves; with the minimum at `"warn"` (4), levels 7
(debug) and 6 (info) are suppressed and never reach the transport, while
3 (error) and 4 (warn) pass through to it. -/
theorem c8_severity_filter_warn (cfg : String) (logLevel v : Nat)
    (h : logLevelOf (if cfg = "" then "info" else cfg) = some v) :
    (shouldLog cfg logLevel = decide (logLevel ≤ v))
    ∧ (shouldLog "warn" 7 = false ∧ shouldLog "warn" 6 = false
       ∧ shouldLog "warn" 3 = true ∧ shouldLog "warn" 4 = true)
    ∧ (∀ msg ts cid ft st e p,
        (safeEmit "warn" 7 msg ts cid ft st e p).sentToTransport = none)
    ∧ (∀ msg ts cid ft st e p,
        (safeEmit "warn" 6 msg ts cid ft st e p).sentToTransport = none)
    ∧ (∀ msg ts cid,
        (safeEmit "warn" 3 msg ts cid false false true true).sentToTransport
          = some (formatLog msg 3 ts cid))
    ∧ (∀ msg ts cid,
        (safeEmit "warn" 4 msg ts cid false false true true).sentToTransport
          = some (formatLog msg 4 ts cid)) := by
  refine ⟨?_, ⟨rfl, rfl, rfl, rfl⟩, ?_, ?_, ?_, ?_⟩
  · simp only [shouldLog, h]
  · intro msg ts cid ft st e p; rfl
  · intro msg ts cid ft st e p; rfl
  · intro msg ts cid; rfl
  · intro msg ts cid; rfl

/-- C8 witness: at configured minimum `"warn"` (value 4), a warn-level
record (4) passes the filter. -/
theorem c8_witness :
    logLevelOf (if "warn" = "" then "info" else "warn") = some 4
    ∧ shouldLog "warn" 4 = decide (4 ≤ 4) :=
  ⟨by rfl, (c8_severity_filter_warn "warn" 4 4 (by rfl)).1⟩

/-- C7 counterexample: with the feature disabled, `testGraylogConnection`
does return `success = false` without opening a socket, but its detail
string is the Portuguese message from the source, not `"disabled"`. -/
theorem c7_counterexample :
    (testGraylogConnection
        { enabled := false, host := "graylog.example", port := some 12201 }
        true true).1.success = false
    ∧ (testGraylogConnection
        { enabled := false, host := "graylog.example", port := some 12201 }
        true true).2 = false
    ∧ (testGraylogConnection
        { enabled := false, host := "graylog.example", port := some 12201 }
        true true).1.message ≠ "disabled" := by
  refine ⟨rfl, rfl, ?_⟩
  decide

/-- C7 amended: with no endpoint configured (feature disabled),
`testGraylogConnection` returns `success = false` with the detail string
"Graylog não está ativado nas configurações." and opens no socket. -/
theorem c7_disabled_returns_failure_no_socket (cfg : GraylogConfig)
    (tp sOk : Bool) (h : cfg.enabled = false) :
    (testGraylogConnection cfg tp sOk).1.success = false
    ∧ (testGraylogConnection cfg tp sOk).1.message = disabledMessage
    ∧ (testGraylogConnection cfg tp sOk).2 = false := by
  simp [testGraylogConnection, h]

/-- C7 witness: the amended statement at a concrete disabled config. -/
theorem c7_witness :
    (GraylogConfig.enabled { enabled := false, host := "h", port := none } = false)
    ∧ (testGraylogConnection { enabled := false, host := "h", port := none }
        false false).1.message = disabledMessage :=
  ⟨rfl, (c7_disabled_returns_failure_no_socket
      { enabled := false, host := "h", port := none } false false rfl).2.1⟩

/-- C4: every level-tagged emit function, plain or context-bound,
returns normally for every input and every combination of internal
failures: any exception inside the try block is caught and answered by
the fallback console print, which itself does not throw. -/
theorem c4_emit_never_throws :
    (∀ cfg level msg ts cid ft st e p,
      (safeEmit cfg level msg ts cid ft st e p).result = Except.ok ())
    ∧ (∀ cm cfg level msg ts cid ft st e p,
      (safeEmitCtx cm cfg level msg ts cid ft st e p).result = Except.ok ()) := by
  constructor
  · intro cfg level msg ts cid ft st e p
    unfold safeEmit
    split
    · rfl
    · split <;> rfl
  · intro cm cfg level msg ts cid ft st e p
    unfold safeEmitCtx
    split
    · rfl
    · split <;> rfl

/-- C5: `close` is idempotent — a second call produces the same state as
the first (no additional observable effect, and no error: every throwing
operation inside `close` is caught), and across both calls the socket is
released at most once. -/
theorem c5_close_idempotent (t : GraylogTransport) :
    t.close.close = t.close
    ∧ t.close.releases ≤ t.releases + 1
    ∧ t.close.close.releases = t.close.releases := by
  unfold GraylogTransport.close GraylogTransport.socketCloseOp
  rcases t with ⟨cp, sr, c, b, m, rt, ds, r⟩
  cases cp <;> cases sr <;> simp

/-- C1 counterexample: a record written while connected whose send fails
at the socket level does move the transport to disconnected, but it does
not re-enter the queue — the buffer stays empty. -/
theorem c1_counterexample :
    (connectedTransport.write 42 false true).connected = false
    ∧ (connectedTransport.write 42 false true).buffer = []
    ∧ ¬ 42 ∈ (connectedTransport.write 42 false true).buffer := by
  decide

/-- C1 amended: when a record is written while connected and the send
fails at the socket level, the transport moves to disconnected and arms
the reconnect timer, but the record is dropped — the delivery queue is
left exactly as it was. -/
theorem c1_send_failure_disconnects_and_drops (t : GraylogTransport)
    (log : Nat) (hc : t.connected = true) (hp : t.clientPresent = true) :
    (t.write log false true).connected = false
    ∧ (t.write log false true).reconnectTimer = true
    ∧ (t.write log false true).buffer = t.buffer := by
  unfold GraylogTransport.write GraylogTransport.sendLog
    GraylogTransport.scheduleReconnect
  simp [hc, hp]

/-- C1 witness: the amended statement at a concrete connected
transport. -/
theorem c1_witness :
    (connectedTransport.connected = true
     ∧ connectedTransport.clientPresent = true)
    ∧ (connectedTransport.write 7 false true).buffer = connectedTransport.buffer :=
  ⟨⟨rfl, rfl⟩,
   (c1_send_failure_disconnects_and_drops connectedTransport 7 rfl rfl).2.2⟩

set_option maxRecDepth 10000

/-- C2: while the transport is not connected, the queue length never
exceeds the capacity for any sequence of submits; a submit arriving with
the queue at capacity evicts the oldest entry before appending the new
one; and submitting records 1..150 while disconnected with the default
capacity 100 leaves exactly records 51..150, in FIFO order. -/
theorem c2_bounded_queue_newest_preferred :
    (∀ (t : GraylogTransport) (lg : Nat), t.connected = false →
      t.buffer.length ≤ t.maxBufferSize → 0 < t.maxBufferSize →
      (t.write lg false false).buffer.length ≤ t.maxBufferSize)
    ∧ (∀ (t : GraylogTransport) (lg : Nat), t.connected = false →
      t.buffer.length = t.maxBufferSize →
      (t.write lg false false).buffer = t.buffer.tail ++ [lg])
    ∧ (∀ (t : GraylogTransport) (logs : List Nat), t.connected = false →
      t.buffer.length ≤ t.maxBufferSize → 0 < t.maxBufferSize →
      (t.writeAll logs).buffer.length ≤ t.maxBufferSize)
    ∧ (disconnectedTransport.writeAll ((List.range 150).map (fun i => i + 1))).buffer
        = (List.range 100).map (fun i => i + 51) := by
  refine ⟨fun t lg h hb hm => write_disconnected_length_le t lg h hb hm, ?_,
    fun t logs h hb hm => writeAll_disconnected_length_le logs t h hb hm, by decide⟩
  intro t lg h hb
  rw [write_disconnected_eq t lg h, if_neg (by omega)]

/-- C2 witness: the queue-bound invariant applied to three submits on a
concrete disconnected transport. -/
theorem c2_witness :
    (disconnectedTransport.connected = false
     ∧ disconnectedTransport.buffer.length ≤ disconnectedTransport.maxBufferSize
     ∧ 0 < disconnectedTransport.maxBufferSize)
    ∧ (disconnectedTransport.writeAll [1, 2, 3]).buffer.length
        ≤ disconnectedTransport.maxBufferSize :=
  ⟨⟨rfl, by decide, by decide⟩,
   c2_bounded_queue_newest_preferred.2.2.1 disconnectedTransport [1, 2, 3] rfl
     (by decide) (by decide)⟩

/-- C3: entering Connected runs an immediate drain step and, together
with `k` subsequently scheduled continuations, emits exactly the first
`10 * (k + 1)` queued entries in their original FIFO order, leaving the
rest queued; every step's batch has at most 10 entries; a step with more
than 10 entries pending schedules a continuation instead of continuing
synchronously; and once enough steps have run the queue is empty. -/
theorem c3_connect_drains_fifo_in_batches (t : GraylogTransport) (k : Nat) :
    ((t.setupConnection false false).1.connected = true)
    ∧ ((t.setupConnection false false).2
        ++ ((t.setupConnection false false).1.drainRun k).2
        = t.buffer.take (10 * (k + 1)))
    ∧ (((t.setupConnection false false).1.drainRun k).1.buffer
        = t.buffer.drop (10 * (k + 1)))
    ∧ (∀ (u : GraylogTransport) (b : Bool), (u.processBuffer b).2.length ≤ 10)
    ∧ (∀ u : GraylogTransport, u.connected = true → u.clientPresent = true →
        10 < u.buffer.length → (u.processBuffer false).1.drainScheduled = true)
    ∧ (t.buffer.length ≤ 10 * (k + 1) →
        ((t.setupConnection false false).1.drainRun k).1.buffer = []) := by
  obtain ⟨sb, sbt, sc, sp⟩ := processBuffer_success_spec
    { t with clientPresent := true, socketRunning := true, connected := true } rfl rfl
  have hbuf : ({ t with clientPresent := true, socketRunning := true, connected := true } : GraylogTransport).buffer = t.buffer := rfl
  rw [hbuf] at sb sbt
  obtain ⟨d1, d2, d3, d4⟩ := drainRun_spec k
    (({ t with clientPresent := true, socketRunning := true, connected := true }).processBuffer false).1 sc sp
  have harith : 10 * (k + 1) = 10 + 10 * k := by ring
  rw [setupConnection_success_eq]
  refine ⟨sc, ?_, ?_, processBuffer_batch_le_ten, processBuffer_reschedules, ?_⟩
  · rw [d1, sbt, sb, harith, List.take_add]
  · rw [d2, sb, harith, List.drop_drop]
  · intro hlen
    rw [d2, sb, List.drop_drop]
    exact List.drop_eq_nil_of_le (by omega)

/-- C3 witness: 25 records queued while disconnected drain completely
after the connect step plus two scheduled continuations, and a connected
transport with 11 queued records reschedules after its first batch. -/
theorem c3_witness :
    (queuedTransport.buffer.length ≤ 10 * (2 + 1)
     ∧ ((queuedTransport.setupConnection false false).1.drainRun 2).1.buffer = [])
    ∧ (connectedEleven.connected = true ∧ connectedEleven.clientPresent = true
       ∧ 10 < connectedEleven.buffer.length
       ∧ (connectedEleven.processBuffer false).1.drainScheduled = true) :=
  ⟨⟨by decide,
    (c3_connect_drains_fifo_in_batches queuedTransport 2).2.2.2.2.2 (by decide)⟩,
   ⟨rfl, rfl, by decide,
    (c3_connect_drains_fifo_in_batches queuedTransport 2).2.2.2.2.1 connectedEleven
      rfl rfl (by decide)⟩⟩

/-- C6 counterexample: `close` does not cancel a pending batch-drain
continuation — after closing a transport with one queued record and a
scheduled drain step, the continuation is still pending and firing it
still processes the record. -/
theorem c6_counterexample :
    pendingDrainTransport.close.drainScheduled = true
    ∧ (pendingDrainTransport.close.fireDrain false).2 = [5]
    ∧ (pendingDrainTransport.close.fireDrain false).1.buffer = [] := by
  decide

/-- C6 amended: `close` cancels the pending reconnect timer, so no
reconnect attempt fires after it returns, but it leaves any pending
batch-drain continuation scheduled (and the connected flag, client, and
queue untouched); when the queue is non-empty that continuation still
sends a non-empty batch after `close`. -/
theorem c6_close_does_not_cancel_drain (t : GraylogTransport) :
    t.close.reconnectTimer = false
    ∧ t.close.drainScheduled = t.drainScheduled
    ∧ t.close.connected = t.connected
    ∧ t.close.clientPresent = t.clientPresent
    ∧ t.close.buffer = t.buffer
    ∧ (t.connected = true → t.clientPresent = true → t.buffer ≠ [] →
        (t.close.fireDrain false).2 ≠ []) := by
  obtain ⟨pc, pp, pb, prt, pds⟩ := close_preserves t
  refine ⟨prt, pds, pc, pp, pb, ?_⟩
  intro hc hp hne
  have hc' : t.close.connected = true := by rw [pc]; exact hc
  have hp' : t.close.clientPresent = true := by rw [pp]; exact hp
  obtain ⟨sb, sbt, _, _⟩ :=
    processBuffer_success_spec { t.close with drainScheduled := false } hc' hp'
  have hb2 : ({ t.close with drainScheduled := false } : GraylogTransport).buffer = t.buffer := pb
  rw [hb2] at sbt
  rw [fireDrain_eq, sbt]
  have hlen : 0 < t.buffer.length := List.length_pos.2 hne
  have hpos : 0 < (t.buffer.take 10).length := by
    rw [List.length_take]
    exact lt_min (by omega) hlen
  exact List.length_pos.1 hpos

/-- C6 witness: the amended statement at a concrete closed transport
with a queued record. -/
theorem c6_witness :
    (pendingDrainTransport.connected = true
     ∧ pendingDrainTransport.clientPresent = true
     ∧ pendingDrainTransport.buffer ≠ [])
    ∧ (pendingDrainTransport.close.fireDrain false).2 ≠ [] :=
  ⟨⟨rfl, rfl, by decide⟩,
   (c6_close_does_not_cancel_drain pendingDrainTransport).2.2.2.2.2 rfl rfl
     (by decide)⟩

end SimpleLoggerUdp
